import Mathlib

set_option maxRecDepth 8000
set_option maxHeartbeats 1000000

namespace W08

/-!
Shallow embedding of the w08-backend record service (src/src/app.py, src/src/db.py,
src/src/dao.py).  Rows are association lists from column names to runtime values,
mirroring the generic, reflection-driven style of the service.  The database state
carries the model tables, the five many-to-many association tables, and the
auto-increment counters.  Exceptions of the Python layer are modelled with an
explicit error type; the route-level `catch_exception_wrapper` turns database
errors (IntegrityError / StatementError) into 400 responses and everything else
into 500 responses, rolling back the session.
-/

/-- Runtime values stored in table columns and carried in request payloads. -/
inductive Value where
  | null
  | int (i : Int)
  | str (s : String)
  | bool (b : Bool)
  | strArr (l : List String)
  | intArr (l : List Int)
  deriving Repr, BEq, DecidableEq

/-- A row of a model table: column name to value. -/
abbrev Row := List (String × Value)

/-- A JSON request payload, in key order. -/
abbrev Payload := List (String × Value)

/-- JSON values, the shape returned by the serialize methods. -/
inductive J where
  | null
  | jint (i : Int)
  | jstr (s : String)
  | jbool (b : Bool)
  | jarr (l : List J)
  | jobj (l : List (String × J))
  deriving Repr

/-- Python-level exceptions relevant to the service.  `integrityError` and
`statementError` are the database errors caught by the 400 branch of
`catch_exception_wrapper`; the others fall to the generic 500 branch. -/
inductive PyErr where
  | typeError (msg : String)
  | valueError (msg : String)
  | attributeError (msg : String)
  | integrityError (msg : String)
  | statementError (msg : String)
  | unmappedError (msg : String)
  deriving Repr, BEq, DecidableEq

/-- Whether an exception is caught by the `(IntegrityError, StatementError)`
clause of `catch_exception_wrapper` (mapped to 400); otherwise 500. -/
def PyErr.isDbError : PyErr → Bool
  | .integrityError _ => true
  | .statementError _ => true
  | _ => false

/-- An HTTP response: `success_response` / `failure_response` of app.py. -/
inductive Response where
  | success (data : J) (code : Nat)
  | failure (message : String) (code : Nat)
  deriving Repr

def Response.code : Response → Nat
  | .success _ c => c
  | .failure _ c => c

def Response.isSuccess : Response → Bool
  | .success _ _ => true
  | .failure _ _ => false

/-- Association-table row: a pair of ids, in declared column order. -/
abbrev AssocRow := Int × Int

/-- The committed database state: model tables, junction tables, and the
per-table auto-increment counters. -/
structure DBState where
  tables : List (String × List Row)
  assocs : List (String × List AssocRow)
  nextIds : List (String × Int)
  deriving Repr, BEq, DecidableEq

/-- Result of one request: the response, the committed state afterwards, and any
uncommitted attribute changes still pending in the SQLAlchemy session when the
handler returned (rolled back only by the exception branches of
`catch_exception_wrapper`, or later at request teardown). -/
structure ReqResult where
  resp : Response
  db : DBState
  pending : Option Row
  deriving Repr

/-- Replace (or insert) a key in an association list. -/
def assocSet {α : Type} (l : List (String × α)) (k : String) (v : α) :
    List (String × α) :=
  match l with
  | [] => [(k, v)]
  | (k', v') :: rest =>
      if k' == k then (k, v) :: rest else (k', v') :: assocSet rest k v

def getTable (db : DBState) (t : String) : List Row :=
  (db.tables.lookup t).getD []

def setTable (db : DBState) (t : String) (rows : List Row) : DBState :=
  { db with tables := assocSet db.tables t rows }

def getAssoc (db : DBState) (a : String) : List AssocRow :=
  (db.assocs.lookup a).getD []

def setAssoc (db : DBState) (a : String) (rows : List AssocRow) : DBState :=
  { db with assocs := assocSet db.assocs a rows }

def rowLookup (r : Row) (k : String) : Option Value :=
  r.lookup k

def getInt (r : Row) (k : String) : Option Int :=
  match rowLookup r k with
  | some (.int i) => some i
  | _ => none

def getStr (r : Row) (k : String) : Option String :=
  match rowLookup r k with
  | some (.str s) => some s
  | _ => none

def getBool (r : Row) (k : String) : Option Bool :=
  match rowLookup r k with
  | some (.bool b) => some b
  | _ => none

def getStrArr (r : Row) (k : String) : Option (List String) :=
  match rowLookup r k with
  | some (.strArr l) => some l
  | _ => none

/-- Overwrite a column of a row (Python `setattr` on a mapped column). -/
def setCol (r : Row) (k : String) (v : Value) : Row :=
  (k, v) :: r.filter (fun p => !(p.1 == k))

/-- The integer primary key of a row (rows in committed tables always carry one). -/
def rowIdOf (r : Row) : Int :=
  (getInt r "id").getD 0

/-- Row lookup by primary key in a named table (`model.query.get(id)`). -/
def queryGetS (t : String) (i : Int) (db : DBState) : Option Row :=
  (getTable db t).find? (fun r => rowIdOf r == i)

/-!
Schema metadata, transcribed from src/src/db.py.  The enum value lists come from
`data.json`, which is not part of the repository sources; they are modelled from
the spec below.  Check constraints written as bare class attributes with a string
SQL text (`Facility.facility_constraint`, `Abnormality.breaching_xor_working`)
are never associated with any table by SQLAlchemy (a string-text CheckConstraint
has no column objects to auto-attach through, and declarative does not collect
plain class attributes), so they do not appear in the active check list below.
Check constraints passed inside a `Column(...)` call are attached and active.
-/

/-- Modelled from the spec: `data.json` (absent from the repository) supplies the
five fixed department names; only that there are five distinct values matters to
the claims, so placeholder names are used. -/
def department_names_enum : List String :=
  ["Welfare", "Records", "Security", "Extraction", "Disciplinary"]

/-- Modelled from the spec: `data.json` supplies the threat-level enum; the
claims never depend on the particular values, so placeholders are used. -/
def threat_levels_enum : List String :=
  ["Zayin", "Teth", "He", "Waw", "Aleph"]

/-- Agent ranks; the source's validators name exactly "Agent" and "Captain". -/
def ranks_enum : List String :=
  ["Agent", "Captain"]

/-- Modelled from the spec: `data.json` supplies the trauma enum; placeholders. -/
def traumas_enum : List String :=
  ["Fear", "Doubt", "Obsession", "Despair"]

/-- Ego types; the source's `max_extracted` constraint names "Gift". -/
def ego_types_enum : List String :=
  ["Weapon", "Armor", "Gift"]

/-- Modelled from the spec: `data.json` maps each threat level to the ceiling of
the four research clocks (used by the body of `Abnormality.validate_clocks`). -/
def threat_clocks (level : String) : Int :=
  if level == "Zayin" then 2
  else if level == "Teth" then 3
  else if level == "He" then 4
  else if level == "Waw" then 5
  else 6

/-- The ten model classes of db.py. -/
inductive Kind where
  | facility
  | department
  | abnormality
  | agent
  | project
  | ability
  | harm
  | ego
  | clock
  | tile
  deriving Repr, BEq, DecidableEq

/-- The `__tablename__` of each model. -/
def tablename : Kind → String
  | .facility => "facilities"
  | .department => "departments"
  | .abnormality => "abnormalities"
  | .agent => "agents"
  | .project => "projects"
  | .ability => "abilities"
  | .harm => "harms"
  | .ego => "egos"
  | .clock => "clocks"
  | .tile => "tiles"

/-- Reverse of `tablename` (app.py's `tablename_to_model`). -/
def tablename_to_model (t : String) : Option Kind :=
  if t == "facilities" then some .facility
  else if t == "departments" then some .department
  else if t == "abnormalities" then some .abnormality
  else if t == "agents" then some .agent
  else if t == "projects" then some .project
  else if t == "abilities" then some .ability
  else if t == "harms" then some .harm
  else if t == "egos" then some .ego
  else if t == "clocks" then some .clock
  else if t == "tiles" then some .tile
  else none

/-- Column value types, including enum columns with their allowed values. -/
inductive ColType where
  | tInt
  | tStr
  | tBool
  | tStrArr
  | tEnum (allowed : List String)
  | tEnumArr (allowed : List String)
  deriving Repr, BEq, DecidableEq

/-- One column declaration: name, type, nullability, and column default. -/
structure ColumnSpec where
  name : String
  ty : ColType
  nullable : Bool
  default : Option Value
  deriving Repr, BEq, DecidableEq

/-- Shorthand for a non-nullable column with no default. -/
def req (n : String) (ty : ColType) : ColumnSpec := ⟨n, ty, false, none⟩

/-- Shorthand for a nullable column with no default. -/
def opt (n : String) (ty : ColType) : ColumnSpec := ⟨n, ty, true, none⟩

/-- Shorthand for a non-nullable column with a default. -/
def dfl (n : String) (ty : ColType) (v : Value) : ColumnSpec := ⟨n, ty, false, some v⟩

/-- The columns of each table, in declaration order (db.py). -/
def columns : Kind → List ColumnSpec
  | .facility =>
      [dfl "id" .tInt (.int 1),
       dfl "available_PE" .tInt (.int 0),
       dfl "available_rabbits" .tInt (.int 0),
       dfl "day" .tInt (.int 0),
       dfl "shift" .tInt (.int 0),
       dfl "alert_level" .tInt (.int 0)]
  | .department =>
      [req "id" .tInt,
       req "name" (.tEnum department_names_enum),
       dfl "buffs" .tStrArr (.strArr []),
       dfl "rabbited" .tBool (.bool false)]
  | .abnormality =>
      [req "id" .tInt,
       opt "tile_id" .tInt,
       req "name" .tStr,
       req "abno_code" .tStr,
       req "blurb" .tStr,
       opt "current_status" .tStr,
       req "threat_level" (.tEnum threat_levels_enum),
       dfl "is_breaching" .tBool (.bool false),
       dfl "is_working" .tBool (.bool false),
       req "description" .tStr,
       req "damage_type" .tStr,
       req "favored_work" .tStr,
       req "disfavored_work" .tStr,
       req "can_breach" .tBool,
       req "weaknesses" .tStr,
       req "resists" .tStr,
       dfl "management_show" .tInt (.int 0),
       dfl "management_notes" .tStrArr (.strArr []),
       dfl "story_show" .tInt (.int 0),
       dfl "stories" .tStrArr (.strArr []),
       dfl "clock_1" .tInt (.int 0),
       dfl "clock_2" .tInt (.int 0),
       dfl "clock_3" .tInt (.int 0),
       dfl "clock_4" .tInt (.int 0),
       dfl "clock_4_finished" .tBool (.bool false),
       opt "player_notes" .tStr]
  | .agent =>
      [req "id" .tInt,
       opt "tile_id" .tInt,
       req "department_id" .tInt,
       opt "abnormality_id" .tInt,
       req "name" .tStr,
       opt "blurb" .tStr,
       opt "current_status" .tStr,
       opt "character_notes" .tStr,
       req "rank" (.tEnum ranks_enum),
       dfl "physical_heal" .tInt (.int 0),
       dfl "mental_heal" .tInt (.int 0),
       dfl "stress" .tInt (.int 0),
       dfl "traumas" (.tEnumArr traumas_enum) (.strArr []),
       dfl "is_visible" .tBool (.bool true),
       dfl "agent_exp" .tInt (.int 0),
       dfl "fortitude" .tInt (.int 0),
       dfl "prudence" .tInt (.int 0),
       dfl "temperance" .tInt (.int 0),
       dfl "justice" .tInt (.int 0),
       dfl "fortitude_tick" .tInt (.int 0),
       dfl "prudence_tick" .tInt (.int 0),
       dfl "temperance_tick" .tInt (.int 0),
       dfl "justice_tick" .tInt (.int 0),
       dfl "ability_tick" .tInt (.int 0),
       dfl "force_lvl" .tInt (.int 0),
       dfl "endure_lvl" .tInt (.int 0),
       dfl "lurk_lvl" .tInt (.int 0),
       dfl "rush_lvl" .tInt (.int 0),
       dfl "observe_lvl" .tInt (.int 0),
       dfl "consort_lvl" .tInt (.int 0),
       dfl "shoot_lvl" .tInt (.int 0),
       dfl "protocol_lvl" .tInt (.int 0),
       dfl "discipline_lvl" .tInt (.int 0),
       dfl "skirmish_lvl" .tInt (.int 0)]
  | .project =>
      [req "id" .tInt,
       req "name" .tStr,
       opt "description" .tStr,
       req "max_clock" .tInt,
       dfl "curr_tick" .tInt (.int 0)]
  | .ability =>
      [req "id" .tInt,
       req "name" .tStr,
       opt "description" .tStr,
       dfl "rank" (.tEnum ranks_enum) (.str "Agent")]
  | .harm =>
      [req "id" .tInt,
       req "agent_id" .tInt,
       req "level" .tInt,
       req "is_physical" .tBool,
       opt "description" .tStr]
  | .ego =>
      [req "id" .tInt,
       req "abnormality_id" .tInt,
       req "type" (.tEnum ego_types_enum),
       req "name" .tStr,
       req "grade" (.tEnum threat_levels_enum),
       req "effect" .tStr,
       opt "description" .tStr,
       opt "max_extracted" .tInt]
  | .clock =>
      [req "id" .tInt,
       req "name" .tStr,
       opt "description" .tStr,
       req "max_count" .tInt,
       dfl "tick_count" .tInt (.int 0),
       dfl "important" .tBool (.bool false)]
  | .tile =>
      [req "id" .tInt,
       req "y" .tInt,
       req "x" .tInt,
       req "can_place_containment" .tBool,
       req "is_containment_unit" .tBool,
       opt "is_working" .tBool,
       opt "meltdown" .tBool,
       opt "work_type" .tStr,
       opt "engagement_status" .tStr]

/-- The column names of a table (`model.metadata.tables[tablename].columns`). -/
def columnNames (t : Kind) : List String :=
  (columns t).map (·.name)

/-- The required fields computed by app.py: non-nullable columns with no default,
excluding `id`. -/
def required_fields (t : Kind) : List String :=
  ((columns t).filter
    (fun c => !c.nullable && c.default.isNone && !(c.name == "id"))).map (·.name)

/-- Foreign-key columns of each table and their target table. -/
def foreignKeys : Kind → List (String × String)
  | .abnormality => [("tile_id", "tiles")]
  | .agent =>
      [("tile_id", "tiles"), ("department_id", "departments"),
       ("abnormality_id", "abnormalities")]
  | .harm => [("agent_id", "agents")]
  | .ego => [("abnormality_id", "abnormalities")]
  | _ => []

/-- Relationship shapes of db.py. -/
inductive RelKind where
  | toOne (fkCol : String) (target : String)
  | toManyChild (childTable : String) (childFk : String) (cascade : Bool)
  | manyToMany (assoc : String) (selfIsFst : Bool) (target : String)
  deriving Repr, BEq, DecidableEq

/-- One declared relationship attribute. -/
structure RelSpec where
  attr : String
  kind : RelKind
  deriving Repr, BEq, DecidableEq

/-- The relationships of each model, transcribed from db.py.  The association
table columns are, in order: (department_id, project_id), (agent_id, ego_id),
(agent_id, ability_id), (agent_id, clock_id), (abnormality_id, clock_id). -/
def relationships : Kind → List RelSpec
  | .facility => []
  | .department =>
      [⟨"agents", .toManyChild "agents" "department_id" false⟩,
       ⟨"projects", .manyToMany "project_department_association" true "projects"⟩]
  | .abnormality =>
      [⟨"tile", .toOne "tile_id" "tiles"⟩,
       ⟨"clocks", .manyToMany "abnormality_clock_association" true "clocks"⟩,
       ⟨"agents", .toManyChild "agents" "abnormality_id" false⟩,
       ⟨"egos", .toManyChild "egos" "abnormality_id" true⟩]
  | .agent =>
      [⟨"tile", .toOne "tile_id" "tiles"⟩,
       ⟨"department", .toOne "department_id" "departments"⟩,
       ⟨"abnormality", .toOne "abnormality_id" "abnormalities"⟩,
       ⟨"egos", .manyToMany "agent_ego_association" true "egos"⟩,
       ⟨"abilities", .manyToMany "agent_ability_association" true "abilities"⟩,
       ⟨"clocks", .manyToMany "agent_clock_association" true "clocks"⟩,
       ⟨"harms", .toManyChild "harms" "agent_id" true⟩]
  | .project =>
      [⟨"departments", .manyToMany "project_department_association" false "departments"⟩]
  | .ability =>
      [⟨"agents", .manyToMany "agent_ability_association" false "agents"⟩]
  | .harm =>
      [⟨"agent", .toOne "agent_id" "agents"⟩]
  | .ego =>
      [⟨"agents", .manyToMany "agent_ego_association" false "agents"⟩,
       ⟨"abnormality", .toOne "abnormality_id" "abnormalities"⟩]
  | .clock =>
      [⟨"agents", .manyToMany "agent_clock_association" false "agents"⟩,
       ⟨"abnormalities", .manyToMany "abnormality_clock_association" false "abnormalities"⟩]
  | .tile =>
      [⟨"abnormalities", .toManyChild "abnormalities" "tile_id" false⟩,
       ⟨"agents", .toManyChild "agents" "tile_id" false⟩]

/-- The relationship attribute names (app.py's `relationship_fields`). -/
def relationship_fields (t : Kind) : List String :=
  (relationships t).map (·.attr)

/-!
ORM-level validators (`@validates` in db.py).  SQLAlchemy always invokes a
validator as `method(self, key, value)`.  `Agent.validates_stress`,
`Agent.validates_traumas` and `Abnormality.validate_clocks` are declared with
only `(self, value)`, so every call raises
`TypeError: ... takes 2 positional arguments but 3 were given` before the body
runs.  The bodies are still transcribed below, as the behaviour the call would
have had.  `Tile` declares `validates_null_abno` twice; the second `def` in the
class body replaces the first, so `is_containment_unit` has no validator and the
four nullable tile fields use the second definition (which has the correct
arity but raises unconditionally, because the relationship collection
`self.abnormalities` is a list and never `None`).
-/

/-- Declared parameter shapes of the validator methods. -/
inductive VArity where
  | selfValue
  | selfKeyValue
  deriving Repr, BEq, DecidableEq

/-- A validator: its declared arity and its body as written. -/
structure ValidatorDecl where
  arity : VArity
  body : Row → String → Value → Except PyErr Value

/-- Body of `Agent.validates_stress` as written (never reached via the ORM,
see `callValidator`). -/
def validates_stress_body (row : Row) (_key : String) (value : Value) :
    Except PyErr Value :=
  match value with
  | .int v =>
      if getStr row "rank" == some "Agent" then
        if !(0 ≤ v && v ≤ 6) then
          .error (.valueError
            "For \x27rank\x27=Agent agents, \x27stress\x27 must be between 0 and 6")
        else .ok value
      else
        if !(0 ≤ v && v ≤ 8) then
          .error (.valueError
            "For \x27rank\x27=Captain agents, \x27stress\x27 must be between 0 and 8")
        else .ok value
  | _ => .error (.typeError "comparison of int and non-int")

/-- Body of `Agent.validates_traumas` as written (never reached via the ORM). -/
def validates_traumas_body (row : Row) (_key : String) (value : Value) :
    Except PyErr Value :=
  match value with
  | .strArr l =>
      if getStr row "rank" == some "Agent" then
        if l.length > 1 then
          .error (.valueError
            "For \x27rank\x27=Agent agents, you can only have up to 1 \x27trauma\x27")
        else .ok value
      else
        if l.length > 2 then
          .error (.valueError
            "For \x27rank\x27=Agent agents, you can only have up to 2 \x27trauma\x27")
        else .ok value
  | _ => .error (.typeError "object has no len()")

/-- Body of `Abnormality.validate_clocks` as written (never reached via the ORM). -/
def validate_clocks_body (row : Row) (_key : String) (value : Value) :
    Except PyErr Value :=
  match value with
  | .int v =>
      if v < 0 then
        .error (.valueError "Research clocks must be positive")
      else if v > threat_clocks ((getStr row "threat_level").getD "") then
        .error (.valueError
          "Research clocks must be less than or equal to the corresponding value of threat clocks")
      else .ok value
  | _ => .error (.typeError "comparison of int and non-int")

/-- The relationship collection `self.abnormalities` of a tile is an
InstrumentedList and never `None`, so `self.abnormalities is not None` is
always true in `Tile.validates_null_abno`. -/
def abnormalities_is_not_none : Bool := true

/-- Body of the active `Tile.validates_null_abno` (the second definition, for
is_working / meltdown / work_type / engagement_status).  The guard
`self.abnormalities is not None or value is None` is always true, so the
validator raises on every assignment, including assignments of null. -/
def tile_validates_null_abno (_row : Row) (key : String) (value : Value) :
    Except PyErr Value :=
  if abnormalities_is_not_none || value == .null then
    .error (.valueError
      (key ++ " must be NULL when no abnormalities are assigned to tile"))
  else .ok value

/-- The validator registered for a given column of a given model, if any. -/
def validatorFor (t : Kind) (k : String) : Option ValidatorDecl :=
  match t with
  | .agent =>
      if k == "stress" then some ⟨.selfValue, validates_stress_body⟩
      else if k == "traumas" then some ⟨.selfValue, validates_traumas_body⟩
      else none
  | .abnormality =>
      if k == "clock_1" || k == "clock_2" || k == "clock_3" || k == "clock_4" then
        some ⟨.selfValue, validate_clocks_body⟩
      else none
  | .tile =>
      if k == "is_working" || k == "meltdown" || k == "work_type"
          || k == "engagement_status" then
        some ⟨.selfKeyValue, tile_validates_null_abno⟩
      else none
  | _ => none

/-- Invoke a validator the way SQLAlchemy does, with `(self, key, value)`.  A
validator declared `(self, value)` receives one positional argument too many and
raises TypeError before its body runs. -/
def callValidator (vd : ValidatorDecl) (row : Row) (k : String) (v : Value) :
    Except PyErr Value :=
  match vd.arity with
  | .selfValue =>
      .error (.typeError
        (k ++ " validator takes 2 positional arguments but 3 were given"))
  | .selfKeyValue => vd.body row k v

/-- Python `setattr` on a mapped column: runs the registered validator, then
stores the (possibly transformed) value. -/
def setattrCol (t : Kind) (r : Row) (k : String) (v : Value) : Except PyErr Row :=
  match validatorFor t k with
  | none => .ok (setCol r k v)
  | some vd =>
      match callValidator vd r k v with
      | .error e => .error e
      | .ok v' => .ok (setCol r k v')

/-!
Active table check constraints.  Only the CheckConstraints passed inside a
`Column(...)` call are attached to the tables; the bare string constraints
`Facility.facility_constraint` (`id = 1`) and
`Abnormality.breaching_xor_working` are plain class attributes that SQLAlchemy
never associates with a table, so they are absent here.  SQL three-valued logic
applies: a check whose comparison involves NULL passes.
-/

/-- SQL `c >= lo AND c <= hi` under three-valued logic (NULL passes). -/
def sqlBetween (r : Row) (c : String) (lo hi : Int) : Bool :=
  match getInt r c with
  | some v => decide (lo ≤ v) && decide (v ≤ hi)
  | none => true

/-- Postgres `array_length(arr, 1)`: NULL for an empty array. -/
def pgArrayLength (v : Option Value) : Option Int :=
  match v with
  | some (.strArr l) => if l.isEmpty then none else some (Int.ofNat l.length)
  | _ => none

/-- The `X_show >= 0 AND X_show <= array_length(X_notes, 1)` constraints of
Abnormality, under SQL three-valued logic (the array_length side is NULL for an
empty array, so only the lower bound can fail then). -/
def show_note_check (r : Row) (showCol notesCol : String) : Bool :=
  match getInt r showCol, pgArrayLength (rowLookup r notesCol) with
  | some s, some n => decide (0 ≤ s) && decide (s ≤ n)
  | some s, none => decide (0 ≤ s)
  | none, _ => true

/-- Project constraint `curr_tick >= 0 AND curr_tick <= max_clock`. -/
def curr_tick_check (r : Row) : Bool :=
  match getInt r "curr_tick" with
  | some c =>
      decide (0 ≤ c) &&
        (match getInt r "max_clock" with
         | some m => decide (c ≤ m)
         | none => true)
  | none => true

/-- Clock constraint `tick_count <= max_count` (no lower bound in the source). -/
def tick_count_check (r : Row) : Bool :=
  match getInt r "tick_count", getInt r "max_count" with
  | some t, some m => decide (t ≤ m)
  | _, _ => true

/-- Ego constraint `max_extracted IS NULL OR type != \x27Gift\x27`. -/
def max_extracted_check (r : Row) : Bool :=
  match rowLookup r "max_extracted" with
  | some .null => true
  | none => true
  | some _ =>
      match getStr r "type" with
      | some ty => !(ty == "Gift")
      | none => true

/-- Tile constraint `can_place_containment = TRUE OR is_containment_unit = FALSE`. -/
def containment_unit_check (r : Row) : Bool :=
  match getBool r "can_place_containment", getBool r "is_containment_unit" with
  | some c, some i => c || !i
  | _, _ => true

/-- All active check constraints of a table, applied to one row. -/
def rowChecks (t : Kind) (r : Row) : Bool :=
  match t with
  | .facility => sqlBetween r "shift" 0 2 && sqlBetween r "alert_level" 0 3
  | .department => true
  | .abnormality =>
      show_note_check r "management_show" "management_notes" &&
      show_note_check r "story_show" "stories"
  | .agent =>
      sqlBetween r "physical_heal" 0 4 && sqlBetween r "mental_heal" 0 4 &&
      sqlBetween r "fortitude" 0 5 && sqlBetween r "prudence" 0 5 &&
      sqlBetween r "temperance" 0 5 && sqlBetween r "justice" 0 5 &&
      sqlBetween r "fortitude_tick" 0 6 && sqlBetween r "prudence_tick" 0 6 &&
      sqlBetween r "temperance_tick" 0 6 && sqlBetween r "justice_tick" 0 6 &&
      sqlBetween r "force_lvl" 0 4 && sqlBetween r "endure_lvl" 0 4 &&
      sqlBetween r "lurk_lvl" 0 4 && sqlBetween r "rush_lvl" 0 4 &&
      sqlBetween r "observe_lvl" 0 4 && sqlBetween r "consort_lvl" 0 4 &&
      sqlBetween r "shoot_lvl" 0 4 && sqlBetween r "protocol_lvl" 0 4 &&
      sqlBetween r "discipline_lvl" 0 4 && sqlBetween r "skirmish_lvl" 0 4
  | .project => curr_tick_check r
  | .ability => true
  | .harm => sqlBetween r "level" 0 3
  | .ego => max_extracted_check r
  | .clock => tick_count_check r
  | .tile =>
      sqlBetween r "y" 0 15 && sqlBetween r "x" 0 27 && containment_unit_check r

/-- Whether a value is admissible for a column type (enum columns check
membership; a stored NULL is handled by the NOT NULL check instead). -/
def valueMatches : ColType → Value → Bool
  | .tInt, .int _ => true
  | .tStr, .str _ => true
  | .tBool, .bool _ => true
  | .tStrArr, .strArr _ => true
  | .tEnum allowed, .str s => allowed.contains s
  | .tEnumArr allowed, .strArr l => l.all allowed.contains
  | _, _ => false

/-- Column-type and enum admissibility of a full row (violations surface as
StatementError at statement execution). -/
def typeOk (t : Kind) (r : Row) : Bool :=
  (columns t).all (fun c =>
    match rowLookup r c.name with
    | some .null => true
    | none => true
    | some v => valueMatches c.ty v)

/-- NOT NULL constraints of a full (materialized) row. -/
def notNullOk (t : Kind) (r : Row) : Bool :=
  (columns t).all (fun c =>
    c.nullable ||
      (match rowLookup r c.name with
       | some .null => false
       | none => false
       | some _ => true))

/-- Foreign-key constraints of a row against the database state. -/
def fkOk (t : Kind) (r : Row) (db : DBState) : Bool :=
  (foreignKeys t).all (fun p =>
    match rowLookup r p.1 with
    | some (.int i) => (queryGetS p.2 i db).isSome
    | _ => true)

/-!
Serialization, transcribed from the `serialize` / `simple_serialize` methods of
db.py.  Relationship collections are read from the committed state (after
`db.session.commit()` the instance attributes are expired and reload from the
database).  The guards of the form `[... for x in self.xs] if self.xs else []`
produce the same value as the plain comprehension, since an empty collection
maps to an empty list either way.
-/

/-- Convert a stored column value to JSON. -/
def jval (r : Row) (k : String) : J :=
  match rowLookup r k with
  | some (.int i) => .jint i
  | some (.str s) => .jstr s
  | some (.bool b) => .jbool b
  | some (.strArr l) => .jarr (l.map .jstr)
  | some (.intArr l) => .jarr (l.map .jint)
  | some .null => .null
  | none => .null

/-- The rows of a one-to-many relationship collection: children whose foreign
key points at the parent, in storage order. -/
def childRows (db : DBState) (childTable fkCol : String) (parentId : Int) :
    List Row :=
  (getTable db childTable).filter
    (fun r => rowLookup r fkCol == some (.int parentId))

/-- The rows of a many-to-many relationship collection, through its junction
table. -/
def assocTargets (db : DBState) (assoc : String) (selfIsFst : Bool)
    (targetTable : String) (selfId : Int) : List Row :=
  ((getAssoc db assoc).filter
      (fun p => (if selfIsFst then p.1 else p.2) == selfId)).filterMap
    (fun p => queryGetS targetTable (if selfIsFst then p.2 else p.1) db)

def facility_serialize (r : Row) : J :=
  .jobj [("id", jval r "id"),
         ("available_PE", jval r "available_PE"),
         ("available_rabbits", jval r "available_rabbits"),
         ("day", jval r "day"),
         ("shift", jval r "shift"),
         ("alert_level", jval r "alert_level")]

def department_simple_serialize (r : Row) : J :=
  .jobj [("id", jval r "id"), ("name", jval r "name")]

def agent_simple_serialize (r : Row) : J :=
  .jobj [("id", jval r "id"), ("name", jval r "name"),
         ("department_id", jval r "department_id"), ("rank", jval r "rank")]

def project_simple_serialize (r : Row) : J :=
  .jobj [("id", jval r "id"), ("name", jval r "name"),
         ("max_clock", jval r "max_clock"), ("curr_tick", jval r "curr_tick")]

def ability_simple_serialize (r : Row) : J :=
  .jobj [("id", jval r "id"), ("name", jval r "name"),
         ("description", jval r "description"), ("rank", jval r "rank")]

def harm_serialize (r : Row) : J :=
  .jobj [("id", jval r "id"), ("agent_id", jval r "agent_id"),
         ("level", jval r "level"), ("is_physical", jval r "is_physical"),
         ("description", jval r "description")]

/-- Harm's `simple_serialize` just calls `serialize`. -/
def harm_simple_serialize (r : Row) : J :=
  harm_serialize r

def ego_simple_serialize (r : Row) : J :=
  .jobj [("id", jval r "id"), ("abnormality_id", jval r "abnormality_id"),
         ("type", jval r "type"), ("name", jval r "name"),
         ("grade", jval r "grade")]

def abnormality_simple_serialize (r : Row) : J :=
  .jobj [("id", jval r "id"), ("tile_id", jval r "tile_id"),
         ("name", jval r "name"), ("abno_code", jval r "abno_code"),
         ("threat_level", jval r "threat_level")]

def clock_serialize (r : Row) : J :=
  .jobj [("id", jval r "id"), ("name", jval r "name"),
         ("description", jval r "description"),
         ("max_count", jval r "max_count"),
         ("tick_count", jval r "tick_count"),
         ("important", jval r "important")]

def department_serialize (r : Row) (db : DBState) : J :=
  .jobj [("id", jval r "id"),
         ("name", jval r "name"),
         ("agents", .jarr ((childRows db "agents" "department_id" (rowIdOf r)).map
            agent_simple_serialize)),
         ("projects", .jarr ((assocTargets db "project_department_association"
            true "projects" (rowIdOf r)).map project_simple_serialize)),
         ("buffs", jval r "buffs"),
         ("rabbited", jval r "rabbited")]

def abnormality_serialize (r : Row) (db : DBState) : J :=
  .jobj [("id", jval r "id"),
         ("tile_id", jval r "tile_id"),
         ("name", jval r "name"),
         ("agents", .jarr ((childRows db "agents" "abnormality_id" (rowIdOf r)).map
            agent_simple_serialize)),
         ("egos", .jarr ((childRows db "egos" "abnormality_id" (rowIdOf r)).map
            ego_simple_serialize)),
         ("abno_code", jval r "abno_code"),
         ("blurb", jval r "blurb"),
         ("current_status", jval r "current_status"),
         ("threat_level", jval r "threat_level"),
         ("is_breaching", jval r "is_breaching"),
         ("is_working", jval r "is_working"),
         ("description", jval r "description"),
         ("damage_type", jval r "damage_type"),
         ("favored_work", jval r "favored_work"),
         ("disfavored_work", jval r "disfavored_work"),
         ("can_breach", jval r "can_breach"),
         ("weaknesses", jval r "weaknesses"),
         ("resists", jval r "resists"),
         ("management_show", jval r "management_show"),
         ("management_notes", jval r "management_notes"),
         ("story_show", jval r "story_show"),
         ("stories", jval r "stories"),
         ("clock_1", jval r "clock_1"),
         ("clock_2", jval r "clock_2"),
         ("clock_3", jval r "clock_3"),
         ("clock_4", jval r "clock_4"),
         ("clock_4_finished", jval r "clock_4_finished"),
         ("player_notes", jval r "player_notes")]

def agent_serialize (r : Row) (db : DBState) : J :=
  .jobj [("id", jval r "id"),
         ("tile_id", jval r "tile_id"),
         ("name", jval r "name"),
         ("department_id", jval r "department_id"),
         ("egos", .jarr ((assocTargets db "agent_ego_association" true "egos"
            (rowIdOf r)).map ego_simple_serialize)),
         ("abilities", .jarr ((assocTargets db "agent_ability_association" true
            "abilities" (rowIdOf r)).map ability_simple_serialize)),
         ("harms", .jarr ((childRows db "harms" "agent_id" (rowIdOf r)).map
            harm_simple_serialize)),
         ("abnormality_id", jval r "abnormality_id"),
         ("blurb", jval r "blurb"),
         ("current_status", jval r "current_status"),
         ("character_notes", jval r "character_notes"),
         ("rank", jval r "rank"),
         ("physical_heal", jval r "physical_heal"),
         ("mental_heal", jval r "mental_heal"),
         ("stress", jval r "stress"),
         ("traumas", jval r "traumas"),
         ("is_visible", jval r "is_visible"),
         ("agent_exp", jval r "agent_exp"),
         ("fortitude", jval r "fortitude"),
         ("prudence", jval r "prudence"),
         ("temperance", jval r "temperance"),
         ("justice", jval r "justice"),
         ("fortitude_tick", jval r "fortitude_tick"),
         ("prudence_tick", jval r "prudence_tick"),
         ("temperance_tick", jval r "temperance_tick"),
         ("justice_tick", jval r "justice_tick"),
         ("ability_tick", jval r "ability_tick"),
         ("force_lvl", jval r "force_lvl"),
         ("endure_lvl", jval r "endure_lvl"),
         ("lurk_lvl", jval r "lurk_lvl"),
         ("rush_lvl", jval r "rush_lvl"),
         ("observe_lvl", jval r "observe_lvl"),
         ("consort_lvl", jval r "consort_lvl"),
         ("shoot_lvl", jval r "shoot_lvl"),
         ("protocol_lvl", jval r "protocol_lvl"),
         ("discipline_lvl", jval r "discipline_lvl"),
         ("skirmish_lvl", jval r "skirmish_lvl")]

def project_serialize (r : Row) (db : DBState) : J :=
  .jobj [("id", jval r "id"),
         ("name", jval r "name"),
         ("description", jval r "description"),
         ("departments", .jarr ((assocTargets db "project_department_association"
            false "departments" (rowIdOf r)).map department_simple_serialize)),
         ("max_clock", jval r "max_clock"),
         ("curr_tick", jval r "curr_tick")]

def ability_serialize (r : Row) (db : DBState) : J :=
  .jobj [("id", jval r "id"),
         ("name", jval r "name"),
         ("description", jval r "description"),
         ("rank", jval r "rank"),
         ("agents", .jarr ((assocTargets db "agent_ability_association" false
            "agents" (rowIdOf r)).map agent_simple_serialize))]

def ego_serialize (r : Row) (db : DBState) : J :=
  .jobj [("id", jval r "id"),
         ("abnormality_id", jval r "abnormality_id"),
         ("type", jval r "type"),
         ("name", jval r "name"),
         ("agents", .jarr ((assocTargets db "agent_ego_association" false
            "agents" (rowIdOf r)).map agent_simple_serialize)),
         ("grade", jval r "grade"),
         ("effect", jval r "effect"),
         ("description", jval r "description"),
         ("max_extracted", jval r "max_extracted")]

def tile_serialize (r : Row) (db : DBState) : J :=
  .jobj [("id", jval r "id"),
         ("abnormalities", .jarr ((childRows db "abnormalities" "tile_id"
            (rowIdOf r)).map abnormality_simple_serialize)),
         ("agents", .jarr ((childRows db "agents" "tile_id" (rowIdOf r)).map
            agent_simple_serialize)),
         ("y", jval r "y"),
         ("x", jval r "x"),
         ("can_place_containment", jval r "can_place_containment"),
         ("is_containment_unit", jval r "is_containment_unit"),
         ("is_working", jval r "is_working"),
         ("meltdown", jval r "meltdown"),
         ("work_type", jval r "work_type"),
         ("engagement_status", jval r "engagement_status")]

/-- Dispatch `obj.serialize()` on the model kind. -/
def serializeModel (t : Kind) (r : Row) (db : DBState) : J :=
  match t with
  | .facility => facility_serialize r
  | .department => department_serialize r db
  | .abnormality => abnormality_serialize r db
  | .agent => agent_serialize r db
  | .project => project_serialize r db
  | .ability => ability_serialize r db
  | .harm => harm_serialize r
  | .ego => ego_serialize r db
  | .clock => clock_serialize r
  | .tile => tile_serialize r db

/-- The `id` entry of a serialized object. -/
def jGetId (j : J) : Int :=
  match j with
  | .jobj l =>
      match l.lookup "id" with
      | some (.jint i) => i
      | _ => 0
  | _ => 0

/-!
The generic record service (app.py).  `data.json`, which supplies the
`fields_to_column` and `field_to_tablename` configuration, is not among the
repository sources; the two maps below are modelled from the spec.
-/

/-- Modelled from the spec: `data.json`'s per-entity map from request keys that
reference other entities to the relationship attribute that receives the
resolved object(s) — foreign-key-style keys for to-one relationships and list
keys for many-to-many relationships ("relationship-field name to column
mapping" in the spec). -/
def fields_to_column (t : Kind) : List (String × String) :=
  match t with
  | .facility => []
  | .department => [("projects", "projects")]
  | .abnormality => [("tile_id", "tile"), ("clocks", "clocks")]
  | .agent =>
      [("tile_id", "tile"), ("department_id", "department"),
       ("abnormality_id", "abnormality"), ("egos", "egos"),
       ("abilities", "abilities"), ("clocks", "clocks")]
  | .project => [("departments", "departments")]
  | .ability => [("agents", "agents")]
  | .harm => [("agent_id", "agent")]
  | .ego => [("abnormality_id", "abnormality"), ("agents", "agents")]
  | .clock => [("agents", "agents"), ("abnormalities", "abnormalities")]
  | .tile => []

/-- Modelled from the spec: `data.json`'s map from relationship request keys to
the table the referenced ids are resolved against. -/
def field_to_tablename : List (String × String) :=
  [("tile_id", "tiles"), ("department_id", "departments"),
   ("abnormality_id", "abnormalities"), ("agent_id", "agents"),
   ("egos", "egos"), ("abilities", "abilities"), ("clocks", "clocks"),
   ("agents", "agents"), ("projects", "projects"),
   ("departments", "departments")]

/-- Render a payload value the way Python string-formats it into a message. -/
def pyStr : Value → String
  | .null => "None"
  | .int i => toString i
  | .str s => s
  | .bool b => if b then "True" else "False"
  | .strArr l => "[" ++ String.intercalate ", " l ++ "]"
  | .intArr l => "[" ++ String.intercalate ", " (l.map toString) ++ "]"

/-- Python `repr` of a list of strings, as it appears in the missing-fields
message. -/
def pyListRepr (l : List String) : String :=
  "[" ++ String.intercalate ", " (l.map (fun s => "\x27" ++ s ++ "\x27")) ++ "]"

/-- The message of `str(e)` for an embedded exception. -/
def PyErr.msg : PyErr → String
  | .typeError m => m
  | .valueError m => m
  | .attributeError m => m
  | .integrityError m => m
  | .statementError m => m
  | .unmappedError m => m

/-- A value assigned to a relationship attribute of a session instance. -/
inductive RelVal where
  | raw (v : Value)
  | one (target : Row)
  | many (targets : List Row)

/-- A session instance: its column values and its relationship attributes. -/
structure Instance where
  cols : Row
  rels : List (String × RelVal)

def setRelI (inst : Instance) (attr : String) (rv : RelVal) : Instance :=
  { inst with rels := assocSet inst.rels attr rv }

/-- Whether a payload value is a Python list. -/
def isListValue : Value → Bool
  | .strArr _ => true
  | .intArr _ => true
  | _ => false

/-- The elements of a Python list payload value. -/
def listElems : Value → List Value
  | .strArr l => l.map .str
  | .intArr l => l.map .int
  | _ => []

/-- Assign to a relationship attribute (`setattr` inside
`update_relationships`).  Assigning a single object to a collection
relationship raises immediately; everything else is stored on the instance and
is reconciled (or fails) at flush time. -/
def setattrRel (t : Kind) (inst : Instance) (attr : String) (rv : RelVal) :
    Except PyErr Instance :=
  match (relationships t).find? (fun s => s.attr == attr) with
  | none => .ok (setRelI inst attr rv)
  | some s =>
    match s.kind, rv with
    | .toOne _ _, _ => .ok (setRelI inst attr rv)
    | _, .one _ => .error (.typeError "Incompatible collection type: object is not list-like")
    | _, _ => .ok (setRelI inst attr rv)

/-- The model constructor `model(**data)`: each keyword is set through
`setattr`, running column validators; a keyword that names neither a column nor
a relationship raises TypeError; a non-list assigned to a collection
relationship raises TypeError. -/
def buildInstanceGo (t : Kind) : Payload → Instance → Except PyErr Instance
  | [], inst => .ok inst
  | (k, v) :: rest, inst =>
    if (columnNames t).contains k then
      match setattrCol t inst.cols k v with
      | .error e => .error e
      | .ok cols' => buildInstanceGo t rest { inst with cols := cols' }
    else
      match (relationships t).find? (fun s => s.attr == k) with
      | none =>
          .error (.typeError
            ("\x27" ++ k ++ "\x27 is an invalid keyword argument for " ++ tablename t))
      | some s =>
        match s.kind with
        | .toOne _ _ => buildInstanceGo t rest (setRelI inst k (.raw v))
        | _ =>
            if isListValue v then buildInstanceGo t rest (setRelI inst k (.raw v))
            else .error (.typeError "Incompatible collection type: object is not list-like")

def buildInstance (t : Kind) (data : Payload) : Except PyErr Instance :=
  buildInstanceGo t data ⟨[], []⟩

/-- The table a relationship request key resolves against
(`field_to_tablename[k]`). -/
def targetTbl (k : String) : String :=
  (field_to_tablename.lookup k).getD ""

/-- The message of the failure response built inside `update_relationships`. -/
def relNotFoundMsg (k : String) (idStr : String) : String :=
  "Row not found in table \x27" ++ targetTbl k ++ "\x27 for id=" ++ idStr

/-- Resolve a list of referenced ids left to right; the first absent id aborts
with its rendered form. -/
def resolveIds (target : String) (db : DBState) :
    List Value → Except String (List Row)
  | [] => .ok []
  | v :: rest =>
    match v with
    | .int i =>
      match queryGetS target i db with
      | some row =>
        match resolveIds target db rest with
        | .error s => .error s
        | .ok rows => .ok (row :: rows)
      | none => .error (pyStr v)
    | _ => .error (pyStr v)

/-- The loop of `update_relationships`: for each payload key mapped in
`fields_to_column`, resolve the referenced id(s) and assign the resolved
object(s) to the relationship attribute.  A failed resolution returns a
404 failure response immediately (second component) — which both callers in
app.py discard — leaving the assignments made so far on the instance. -/
def update_relationships_go (t : Kind) (db : DBState) :
    Payload → Instance → Except PyErr (Instance × Option Response)
  | [], inst => .ok (inst, none)
  | (k, v) :: rest, inst =>
    match (fields_to_column t).lookup k with
    | none => update_relationships_go t db rest inst
    | some attr =>
      if isListValue v then
        match resolveIds (targetTbl k) db (listElems v) with
        | .error idStr => .ok (inst, some (.failure (relNotFoundMsg k idStr) 404))
        | .ok rows =>
          match setattrRel t inst attr (.many rows) with
          | .error e => .error e
          | .ok inst' => update_relationships_go t db rest inst'
      else
        match v with
        | .int i =>
          match queryGetS (targetTbl k) i db with
          | none => .ok (inst, some (.failure (relNotFoundMsg k (pyStr v)) 404))
          | some row =>
            match setattrRel t inst attr (.one row) with
            | .error e => .error e
            | .ok inst' => update_relationships_go t db rest inst'
        | _ => .ok (inst, some (.failure (relNotFoundMsg k (pyStr v)) 404))

def update_relationships (t : Kind) (data : Payload) (inst : Instance)
    (db : DBState) : Except PyErr (Instance × Option Response) :=
  update_relationships_go t db data inst

/-- Flush the relationship attributes of an instance: to-one assignments
synchronize the foreign-key column; many-to-many assignments become junction
table replacements (returned as pending operations, applied once the row id is
known); leftover raw values from the constructor — unresolved ids assigned
directly to a relationship — fail the flush with an un-mapped-object error. -/
def flushRels (t : Kind) :
    List (String × RelVal) → Row →
      Except PyErr (Row × List (String × Bool × List Int))
  | [], cols => .ok (cols, [])
  | (attr, rv) :: rest, cols =>
    match (relationships t).find? (fun s => s.attr == attr) with
    | none => .error (.attributeError attr)
    | some s =>
      match s.kind, rv with
      | .toOne fkCol _, .one row =>
          flushRels t rest (setCol cols fkCol (.int (rowIdOf row)))
      | .toOne fkCol _, .raw .null =>
          flushRels t rest (setCol cols fkCol .null)
      | .toOne _ _, _ =>
          .error (.unmappedError "object is not a mapped instance")
      | .manyToMany a sf _, .many rows =>
          match flushRels t rest cols with
          | .error e => .error e
          | .ok (cols', ops) => .ok (cols', (a, sf, rows.map rowIdOf) :: ops)
      | .manyToMany a sf _, .raw (.intArr l) =>
          if l.isEmpty then
            match flushRels t rest cols with
            | .error e => .error e
            | .ok (cols', ops) => .ok (cols', (a, sf, []) :: ops)
          else .error (.unmappedError "object is not a mapped instance")
      | .manyToMany a sf _, .raw (.strArr l) =>
          if l.isEmpty then
            match flushRels t rest cols with
            | .error e => .error e
            | .ok (cols', ops) => .ok (cols', (a, sf, []) :: ops)
          else .error (.unmappedError "object is not a mapped instance")
      | .manyToMany _ _ _, _ =>
          .error (.unmappedError "object is not a mapped instance")
      | .toManyChild _ _ _, _ =>
          .error (.unmappedError "object is not a mapped instance")

/-- Apply pending junction-table replacements for an instance id. -/
def applyAssocOps (selfId : Int) :
    List (String × Bool × List Int) → DBState → DBState
  | [], db => db
  | (a, sf, ids) :: rest, db =>
      applyAssocOps selfId rest
        (setAssoc db a
          (((getAssoc db a).filter
              (fun p => !((if sf then p.1 else p.2) == selfId))) ++
            ids.map (fun j => if sf then (selfId, j) else (j, selfId))))

/-- Fill a row out to the full column list: explicit values kept, column
defaults applied, everything else NULL. -/
def materialize (t : Kind) (cols : Row) : Row :=
  (columns t).map (fun c =>
    (c.name,
      match rowLookup cols c.name with
      | some v => v
      | none => c.default.getD .null))

/-- Assign the primary key of an insert: an explicit or defaulted id is used as
given; otherwise the table's auto-increment counter supplies it. -/
def assignId (t : Kind) (cols : Row) (db : DBState) : Int × DBState :=
  match getInt cols "id" with
  | some i => (i, db)
  | none =>
      let n := (db.nextIds.lookup (tablename t)).getD 1
      (n, { db with nextIds := assocSet db.nextIds (tablename t) (n + 1) })

/-- Flush and commit an INSERT: materialize defaults, synchronize
relationships, assign the id, and enforce the schema — column types and enums
(StatementError), NOT NULL, active check constraints, foreign keys, and
primary-key uniqueness (IntegrityError).  On success the row is appended and
junction rows are written. -/
def commitInsert (t : Kind) (inst : Instance) (db : DBState) :
    Except PyErr (Row × DBState) :=
  match flushRels t inst.rels (materialize t inst.cols) with
  | .error e => .error e
  | .ok (cols1, ops) =>
    let p := assignId t cols1 db
    let row := setCol cols1 "id" (.int p.1)
    if !(typeOk t row) then
      .error (.statementError ("invalid input value for a column of \x22" ++ tablename t ++ "\x22"))
    else if !(notNullOk t row) then
      .error (.integrityError ("null value in a column of relation \x22" ++ tablename t ++ "\x22 violates not-null constraint"))
    else if !(rowChecks t row) then
      .error (.integrityError ("new row for relation \x22" ++ tablename t ++ "\x22 violates a check constraint"))
    else if !(fkOk t row p.2) then
      .error (.integrityError ("insert on table \x22" ++ tablename t ++ "\x22 violates a foreign key constraint"))
    else if (getTable p.2 (tablename t)).any (fun r => rowIdOf r == p.1) then
      .error (.integrityError ("duplicate key value violates unique constraint \x22" ++ tablename t ++ "_pkey\x22"))
    else
      .ok (row,
        applyAssocOps p.1 ops
          (setTable p.2 (tablename t) (getTable p.2 (tablename t) ++ [row])))

/-- Flush and commit an UPDATE of the row that had id `origId`. -/
def commitUpdate (t : Kind) (origId : Int) (inst : Instance) (db : DBState) :
    Except PyErr (Row × DBState) :=
  match flushRels t inst.rels inst.cols with
  | .error e => .error e
  | .ok (row, ops) =>
    if !(typeOk t row) then
      .error (.statementError ("invalid input value for a column of \x22" ++ tablename t ++ "\x22"))
    else if !(notNullOk t row) then
      .error (.integrityError ("null value in a column of relation \x22" ++ tablename t ++ "\x22 violates not-null constraint"))
    else if !(rowChecks t row) then
      .error (.integrityError ("new row for relation \x22" ++ tablename t ++ "\x22 violates a check constraint"))
    else if !(fkOk t row db) then
      .error (.integrityError ("update on table \x22" ++ tablename t ++ "\x22 violates a foreign key constraint"))
    else if (getTable db (tablename t)).any
        (fun r => rowIdOf r == rowIdOf row && !(rowIdOf r == origId)) then
      .error (.integrityError ("duplicate key value violates unique constraint \x22" ++ tablename t ++ "_pkey\x22"))
    else
      .ok (row,
        applyAssocOps (rowIdOf row) ops
          (setTable db (tablename t)
            ((getTable db (tablename t)).map
              (fun r => if rowIdOf r == origId then row else r))))

/-- app.py `check_required_fields`: a 400 failure listing every absent required
field, or nothing. -/
def check_required_fields (t : Kind) (data : Payload) : Option Response :=
  let missing := (required_fields t).filter (fun f => !(data.map (·.1)).contains f)
  if missing.isEmpty then none
  else some (.failure ("Missing required fields: " ++ pyListRepr missing) 400)

/-- app.py `get_all_from_model`. -/
def get_all_from_model (t : Kind) (db : DBState) : Response :=
  .success (.jarr ((getTable db (tablename t)).map (fun r => serializeModel t r db))) 200

/-- app.py `get_one_from_model`. -/
def get_one_from_model (model_id : Int) (t : Kind) (db : DBState) : Response :=
  match queryGetS (tablename t) model_id db with
  | none => .failure ("Row not found for id: " ++ toString model_id) 404
  | some obj => .success (serializeModel t obj db) 200

/-- app.py `create_model`.  Note that the failure response possibly produced by
`update_relationships` is discarded — exactly as in the source, where its
return value is not inspected — and the commit proceeds regardless, so an
absent relationship target surfaces (if at all) as a foreign-key
IntegrityError from the flush, not as the prepared 404 response. -/
def create_model (data : Payload) (t : Kind) (db : DBState) :
    Except PyErr ReqResult :=
  match check_required_fields t data with
  | some resp => .ok ⟨resp, db, none⟩
  | none =>
    match buildInstance t data with
    | .error e => .error e
    | .ok inst =>
      match update_relationships t data inst db with
      | .error e => .error e
      | .ok pr =>
        -- pr.2, the failure response possibly prepared by update_relationships,
        -- is never looked at, mirroring the ignored return value in app.py
        match commitInsert t pr.1 db with
        | .error e => .error e
        | .ok rdb =>
            .ok ⟨.success (serializeModel t rdb.1 rdb.2) 201, rdb.2, none⟩

/-- The per-key column loop of `edit_model_by_id`: overwrite columns in payload
order until a key that names no column is hit (returned with the mutated-so-far
row) or a validator raises. -/
def updateColumnsLoop (t : Kind) :
    Row → Payload → Except PyErr (Option String × Row)
  | row, [] => .ok (none, row)
  | row, (k, v) :: rest =>
    if (columnNames t).contains k then
      match setattrCol t row k v with
      | .error e => .error e
      | .ok row' => updateColumnsLoop t row' rest
    else .ok (some k, row)

/-- app.py `edit_model_by_id`.  On an unknown column the function returns a 400
failure response directly: the transaction is neither committed nor rolled
back, so the column assignments already made stay pending on the session
instance (third component of the result).  As in `create_model`, the failure
response of `update_relationships` is discarded. -/
def edit_model_by_id (model_id : Int) (data : Payload) (t : Kind)
    (db : DBState) : Except PyErr ReqResult :=
  match queryGetS (tablename t) model_id db with
  | none =>
      .ok ⟨.failure ("Row not found for id: " ++ toString model_id) 404, db, none⟩
  | some queried =>
    match updateColumnsLoop t queried data with
    | .error e => .error e
    | .ok (some k, sofar) =>
        .ok ⟨.failure ("Column \x27" ++ k ++ "\x27 not found") 400, db, some sofar⟩
    | .ok (none, row') =>
      match update_relationships t data ⟨row', []⟩ db with
      | .error e => .error e
      | .ok pr =>
        -- pr.2, the failure response possibly prepared by update_relationships,
        -- is never looked at, mirroring the ignored return value in app.py
        match commitUpdate t model_id pr.1 db with
        | .error e => .error e
        | .ok rdb =>
            .ok ⟨.success (serializeModel t rdb.1 rdb.2) 200, rdb.2, none⟩

def deleteRowsWhere (db : DBState) (tbl fkCol : String) (i : Int) : DBState :=
  setTable db tbl
    ((getTable db tbl).filter (fun r => !(rowLookup r fkCol == some (.int i))))

def nullFkWhere (db : DBState) (tbl fkCol : String) (i : Int) : DBState :=
  setTable db tbl
    ((getTable db tbl).map (fun r =>
      if rowLookup r fkCol == some (.int i) then setCol r fkCol .null else r))

def removeAssocWhere (db : DBState) (a : String) (selfIsFst : Bool) (i : Int) :
    DBState :=
  setAssoc db a
    ((getAssoc db a).filter
      (fun p => !((if selfIsFst then p.1 else p.2) == i)))

/-- Remove junction rows that point at any of the given target ids on the
given side. -/
def removeAssocForIds (db : DBState) (a : String) (targetIsFst : Bool)
    (ids : List Int) : DBState :=
  setAssoc db a
    ((getAssoc db a).filter
      (fun p => !(ids.contains (if targetIsFst then p.1 else p.2))))

/-- The state change of a flushed DELETE: the row itself goes, `delete-orphan`
children (Agent.harms, Abnormality.egos) are deleted with it, junction rows
that reference the deleted row (or its cascade-deleted egos) are removed, and
loaded non-cascading children have their foreign key set to NULL. -/
def cascadeDelete (t : Kind) (i : Int) (db : DBState) : DBState :=
  let db0 := setTable db (tablename t)
    ((getTable db (tablename t)).filter (fun r => !(rowIdOf r == i)))
  match t with
  | .facility => db0
  | .department =>
      removeAssocWhere (nullFkWhere db0 "agents" "department_id" i)
        "project_department_association" true i
  | .abnormality =>
      let egoIds := ((getTable db "egos").filter
        (fun r => rowLookup r "abnormality_id" == some (.int i))).map rowIdOf
      removeAssocWhere
        (removeAssocForIds
          (nullFkWhere (deleteRowsWhere db0 "egos" "abnormality_id" i)
            "agents" "abnormality_id" i)
          "agent_ego_association" false egoIds)
        "abnormality_clock_association" true i
  | .agent =>
      removeAssocWhere
        (removeAssocWhere
          (removeAssocWhere (deleteRowsWhere db0 "harms" "agent_id" i)
            "agent_ego_association" true i)
          "agent_ability_association" true i)
        "agent_clock_association" true i
  | .project => removeAssocWhere db0 "project_department_association" false i
  | .ability => removeAssocWhere db0 "agent_ability_association" false i
  | .harm => db0
  | .ego => removeAssocWhere db0 "agent_ego_association" false i
  | .clock =>
      removeAssocWhere (removeAssocWhere db0 "agent_clock_association" false i)
        "abnormality_clock_association" false i
  | .tile => nullFkWhere (nullFkWhere db0 "abnormalities" "tile_id" i) "agents" "tile_id" i

/-- app.py `delete_model_by_id`.  The instance is loaded with `joinedload` on
every relationship, so although `serialize()` runs after the commit, the
deleted instance retains its loaded attribute values and the response carries
the pre-delete serialized state.  Deleting a Department that still has agents
flushes `agents.department_id = NULL`, which violates that column's NOT NULL
constraint (the only such case among the models). -/
def delete_model_by_id (model_id : Int) (t : Kind) (db : DBState) :
    Except PyErr ReqResult :=
  match queryGetS (tablename t) model_id db with
  | none =>
      .ok ⟨.failure ("Row not found for id: " ++ toString model_id) 404, db, none⟩
  | some inst =>
      if t == .department &&
          (getTable db "agents").any
            (fun r => rowLookup r "department_id" == some (.int model_id)) then
        .error (.integrityError
          "null value in column \x22department_id\x22 of relation \x22agents\x22 violates not-null constraint")
      else
        .ok ⟨.success (serializeModel t inst db) 200, cascadeDelete t model_id db, none⟩

/-- app.py `catch_exception_wrapper`: IntegrityError / StatementError roll the
session back and give a 400 response with the exception text; any other
exception rolls back and gives 500.  Rollback restores the committed state and
clears pending session changes. -/
def catch_exception_wrapper (r : Except PyErr ReqResult) (db : DBState) :
    ReqResult :=
  match r with
  | .ok res => res
  | .error e => ⟨.failure e.msg (if e.isDbError then 400 else 500), db, none⟩

/-- A create request as routed (create_model under catch_exception_wrapper). -/
def createCall (t : Kind) (data : Payload) (db : DBState) : ReqResult :=
  catch_exception_wrapper (create_model data t db) db

/-- An edit request as routed. -/
def editCall (t : Kind) (model_id : Int) (data : Payload) (db : DBState) :
    ReqResult :=
  catch_exception_wrapper (edit_model_by_id model_id data t db) db

/-- A delete request as routed. -/
def deleteCall (t : Kind) (model_id : Int) (db : DBState) : ReqResult :=
  catch_exception_wrapper (delete_model_by_id model_id t db) db

/-!
The route table of app.py.  The create and delete routes for Department are
commented out in the source; Facility and Tile never had create or delete
routes, and Facility has no fetch-all route either.
-/

/-- Kinds with a `GET /v1/{plural}/` fetch-all route. -/
def listRoutes : List Kind :=
  [.department, .abnormality, .agent, .project, .ability, .harm, .ego, .clock, .tile]

/-- Kinds with a `GET /v1/{plural}/{id}/` fetch-one route. -/
def getOneRoutes : List Kind :=
  [.facility, .department, .abnormality, .agent, .project, .ability, .harm,
   .ego, .clock, .tile]

/-- Kinds with a `POST /v1/{plural}/` create route. -/
def createRoutes : List Kind :=
  [.abnormality, .agent, .project, .ability, .harm, .ego, .clock]

/-- Kinds with a `DELETE /v1/{plural}/{id}/` delete route. -/
def deleteRoutes : List Kind :=
  [.abnormality, .agent, .project, .ability, .harm, .ego, .clock]

/-- Kinds with a `POST /v1/{plural}/{id}/` edit route. -/
def editRoutes : List Kind :=
  [.facility, .department, .abnormality, .agent, .project, .ability, .harm,
   .ego, .clock, .tile]

/-!
dao.py.  `get_department_id_by_name` filters on `Department.department_name`;
the Department model has no such attribute (its name column is `name`), so
evaluating the filter expression raises AttributeError on every call, before
any query runs.
-/

/-- The mapped attributes of the Department model class. -/
def departmentMappedAttrs : List String :=
  columnNames .department ++ relationship_fields .department

/-- dao.py `get_department_id_by_name`.  Were the attribute to exist, the
query would return the first matching Department row object (not an id, as the
docstring promises); as it is, the attribute access raises. -/
def get_department_id_by_name (name : String) (db : DBState) :
    Except PyErr (Option Row) :=
  if departmentMappedAttrs.contains "department_name" then
    .ok (((getTable db "departments").filter
      (fun r => rowLookup r "department_name" == some (.str name))).head?)
  else
    .error (.attributeError
      "type object \x27Department\x27 has no attribute \x27department_name\x27")

/-!
Concrete states and payloads used by the theorems below.
-/

/-- An empty database. -/
def emptyDB : DBState := ⟨[], [], []⟩

/-- A state holding one Department row (id 1) and nothing else. -/
def dbDept : DBState :=
  ⟨[("departments",
     [[("id", Value.int 1), ("name", Value.str "Records"),
       ("buffs", Value.strArr []), ("rabbited", Value.bool false)]])], [], []⟩

/-- A state holding the seeded Facility row (id 1, all counters zero). -/
def dbFac : DBState :=
  ⟨[("facilities",
     [[("id", Value.int 1), ("available_PE", Value.int 0),
       ("available_rabbits", Value.int 0), ("day", Value.int 0),
       ("shift", Value.int 0), ("alert_level", Value.int 0)]])], [], []⟩

/-- A state holding one Tile row (id 1) with no abnormality assigned and all
four nullable work fields NULL. -/
def dbTile : DBState :=
  ⟨[("tiles",
     [[("id", Value.int 1), ("y", Value.int 0), ("x", Value.int 0),
       ("can_place_containment", Value.bool false),
       ("is_containment_unit", Value.bool false),
       ("is_working", Value.null), ("meltdown", Value.null),
       ("work_type", Value.null), ("engagement_status", Value.null)]])], [], []⟩

/-- A state holding one Clock row (id 1). -/
def dbClock : DBState :=
  ⟨[("clocks",
     [[("id", Value.int 1), ("name", Value.str "c"),
       ("description", Value.null), ("max_count", Value.int 4),
       ("tick_count", Value.int 0), ("important", Value.bool false)]])], [], []⟩

/-- The Clock row stored in `dbClock`. -/
def clockRow : Row :=
  [("id", Value.int 1), ("name", Value.str "c"), ("description", Value.null),
   ("max_count", Value.int 4), ("tick_count", Value.int 0),
   ("important", Value.bool false)]

/-- Create-Agent payload referencing department 999, which does not exist. -/
def agentPayloadBadDept : Payload :=
  [("name", Value.str "A"), ("rank", Value.str "Agent"),
   ("department_id", Value.int 999)]

/-- Create-Agent payload with rank "Agent" and stress 7. -/
def agentPayloadStress7 : Payload :=
  [("name", Value.str "A"), ("rank", Value.str "Agent"),
   ("department_id", Value.int 1), ("stress", Value.int 7)]

/-- Create-Agent payload with rank "Captain" and stress 7. -/
def captainPayloadStress7 : Payload :=
  [("name", Value.str "A"), ("rank", Value.str "Captain"),
   ("department_id", Value.int 1), ("stress", Value.int 7)]

/-- Create-Abnormality payload with all required fields and both
`is_breaching` and `is_working` set to true. -/
def abnoPayloadBothFlags : Payload :=
  [("name", Value.str "n"), ("abno_code", Value.str "O-01-01"),
   ("blurb", Value.str "b"), ("threat_level", Value.str "Zayin"),
   ("description", Value.str "d"), ("damage_type", Value.str "R"),
   ("favored_work", Value.str "f"), ("disfavored_work", Value.str "g"),
   ("can_breach", Value.bool true), ("weaknesses", Value.str "w"),
   ("resists", Value.str "r"), ("is_breaching", Value.bool true),
   ("is_working", Value.bool true)]

/-- Create-Clock payload with the two required fields. -/
def clockPayload : Payload :=
  [("name", Value.str "c"), ("max_count", Value.int 4)]

/-- The serialization returned when `clockPayload` is created in `emptyDB`. -/
def clockCreatedJ : J :=
  .jobj [("id", J.jint 1), ("name", J.jstr "c"), ("description", J.null),
         ("max_count", J.jint 4), ("tick_count", J.jint 0),
         ("important", J.jbool false)]

/-- The 404 failure response that `update_relationships` prepares for the
missing department reference of `agentPayloadBadDept` — and that `create_model`
then discards. -/
def discardedRelFailure : Option Response :=
  match buildInstance .agent agentPayloadBadDept with
  | .error _ => none
  | .ok inst =>
    match update_relationships .agent agentPayloadBadDept inst dbDept with
    | .error _ => none
    | .ok (_, r) => r

/-!
Helper lemmas about the state primitives.
-/

theorem lookup_assocSet_self {α : Type} (l : List (String × α)) (k : String)
    (v : α) : (assocSet l k v).lookup k = some v := by
  induction l with
  | nil => simp [assocSet, List.lookup_cons]
  | cons h t ih =>
    obtain ⟨k', v'⟩ := h
    by_cases hk : k' = k
    · subst hk
      simp [assocSet, List.lookup_cons]
    · have h1 : (k' == k) = false := by simp [hk]
      have h2 : (k == k') = false := by simp [Ne.symm hk]
      simp [assocSet, h1, List.lookup_cons, h2, ih]

theorem getTable_setTable_self (db : DBState) (n : String) (rows : List Row) :
    getTable (setTable db n rows) n = rows := by
  simp [getTable, setTable, lookup_assocSet_self]

theorem lookup_assocSet_ne {α : Type} (l : List (String × α)) (k m : String)
    (v : α) (h : ¬(m = k)) : (assocSet l k v).lookup m = l.lookup m := by
  induction l with
  | nil =>
    have h1 : (m == k) = false := by simp [h]
    simp [assocSet, List.lookup_cons, h1]
  | cons p t ih =>
    obtain ⟨k', v'⟩ := p
    by_cases hk : k' = k
    · subst hk
      have h1 : (m == k') = false := by simp [h]
      simp [assocSet, List.lookup_cons, h1]
    · have h1 : (k' == k) = false := by simp [hk]
      by_cases hm : m = k'
      · subst hm
        simp [assocSet, h1, List.lookup_cons]
      · have h2 : (m == k') = false := by simp [hm]
        simp [assocSet, h1, List.lookup_cons, h2, ih]

theorem getTable_setTable_ne (db : DBState) (n m : String) (rows : List Row)
    (h : ¬(m = n)) : getTable (setTable db n rows) m = getTable db m := by
  simp [getTable, setTable, lookup_assocSet_ne _ _ _ _ h]

theorem tables_setAssoc (db : DBState) (a : String) (rows : List AssocRow) :
    (setAssoc db a rows).tables = db.tables := rfl

theorem tables_applyAssocOps (i : Int) (ops : List (String × Bool × List Int))
    (db : DBState) : (applyAssocOps i ops db).tables = db.tables := by
  induction ops generalizing db with
  | nil => rfl
  | cons op rest ih =>
    obtain ⟨a, sf, ids⟩ := op
    simpa [applyAssocOps] using ih _

theorem getTable_eq_of_tables_eq {db db' : DBState} (h : db.tables = db'.tables)
    (n : String) : getTable db n = getTable db' n := by
  simp [getTable, h]

theorem tables_assignId (t : Kind) (cols : Row) (db : DBState) :
    (assignId t cols db).2.tables = db.tables := by
  unfold assignId
  cases getInt cols "id" <;> rfl

theorem rowLookup_setCol_self (r : Row) (k : String) (v : Value) :
    rowLookup (setCol r k v) k = some v := by
  simp [rowLookup, setCol, List.lookup_cons]

theorem find?_append_last {p : Row → Bool} (l : List Row) (x : Row)
    (h : ∀ y ∈ l, p y = false) (hx : p x = true) :
    (l ++ [x]).find? p = some x := by
  induction l with
  | nil => simp [List.find?_cons_of_pos _ hx]
  | cons a t ih =>
    have ha : ¬(p a = true) := by simp [h a (by simp)]
    simpa [List.find?_cons_of_neg _ ha] using
      ih (fun y hy => h y (by simp [hy]))

theorem find?_filter_not {p : Row → Bool} (l : List Row) :
    (l.filter (fun r => !(p r))).find? p = none := by
  rw [List.find?_eq_none]
  intro x hx
  have hm := List.mem_filter.mp hx
  simp only [Bool.not_eq_true'] at hm
  simp [hm.2]

theorem getTable_removeAssocWhere (db : DBState) (a : String) (sf : Bool)
    (i : Int) (n : String) :
    getTable (removeAssocWhere db a sf i) n = getTable db n := rfl

theorem getTable_removeAssocForIds (db : DBState) (a : String) (tf : Bool)
    (ids : List Int) (n : String) :
    getTable (removeAssocForIds db a tf ids) n = getTable db n := rfl

theorem getTable_deleteRowsWhere_ne (db : DBState) (tbl fk : String) (i : Int)
    (n : String) (h : ¬ n = tbl) :
    getTable (deleteRowsWhere db tbl fk i) n = getTable db n :=
  getTable_setTable_ne _ _ _ _ h

theorem getTable_nullFkWhere_ne (db : DBState) (tbl fk : String) (i : Int)
    (n : String) (h : ¬ n = tbl) :
    getTable (nullFkWhere db tbl fk i) n = getTable db n :=
  getTable_setTable_ne _ _ _ _ h

/-- For every kind with a delete route, the flushed delete removes exactly the
rows of that id from the kind's own table (cascades only touch other tables). -/
theorem getTable_cascadeDelete_self (t : Kind) (i : Int) (db : DBState)
    (ht : t ∈ deleteRoutes) :
    getTable (cascadeDelete t i db) (tablename t) =
      (getTable db (tablename t)).filter (fun r => !(rowIdOf r == i)) := by
  cases t
  case facility => exact absurd ht (by simp [deleteRoutes])
  case department => exact absurd ht (by simp [deleteRoutes])
  case tile => exact absurd ht (by simp [deleteRoutes])
  case abnormality =>
    simp only [cascadeDelete, tablename]
    rw [getTable_removeAssocWhere, getTable_removeAssocForIds,
        getTable_nullFkWhere_ne _ _ _ _ _ (by decide),
        getTable_deleteRowsWhere_ne _ _ _ _ _ (by decide),
        getTable_setTable_self]
  case agent =>
    simp only [cascadeDelete, tablename]
    rw [getTable_removeAssocWhere, getTable_removeAssocWhere,
        getTable_removeAssocWhere,
        getTable_deleteRowsWhere_ne _ _ _ _ _ (by decide),
        getTable_setTable_self]
  case project =>
    simp only [cascadeDelete, tablename]
    rw [getTable_removeAssocWhere, getTable_setTable_self]
  case ability =>
    simp only [cascadeDelete, tablename]
    rw [getTable_removeAssocWhere, getTable_setTable_self]
  case harm =>
    simp only [cascadeDelete, tablename]
    rw [getTable_setTable_self]
  case ego =>
    simp only [cascadeDelete, tablename]
    rw [getTable_removeAssocWhere, getTable_setTable_self]
  case clock =>
    simp only [cascadeDelete, tablename]
    rw [getTable_removeAssocWhere, getTable_removeAssocWhere,
        getTable_setTable_self]

/-- A successful `commitInsert` stores an integer id on the returned row and
makes that row retrievable by `query.get` in the committed state. -/
theorem commitInsert_ok (t : Kind) (inst : Instance) (db : DBState) (row : Row)
    (db' : DBState) (h : commitInsert t inst db = .ok (row, db')) :
    rowLookup row "id" = some (.int (rowIdOf row)) ∧
    queryGetS (tablename t) (rowIdOf row) db' = some row := by
  simp only [commitInsert] at h
  split at h
  · simp at h
  · rename_i cols1 ops heq
    split at h
    · simp at h
    · split at h
      · simp at h
      · split at h
        · simp at h
        · split at h
          · simp at h
          · split at h
            · simp at h
            · rename_i h1 h2 h3 h4 hpk
              simp only [Except.ok.injEq, Prod.mk.injEq] at h
              obtain ⟨hrow, hdb⟩ := h
              have hid : rowLookup row "id" =
                  some (.int (assignId t cols1 db).1) := by
                rw [← hrow]
                exact rowLookup_setCol_self _ _ _
              have hrid : rowIdOf row = (assignId t cols1 db).1 := by
                simp [rowIdOf, getInt, hid]
              refine ⟨by rw [hid, hrid], ?_⟩
              have htab : getTable db' (tablename t) =
                  getTable (assignId t cols1 db).2 (tablename t) ++ [row] := by
                rw [← hdb]
                rw [getTable_eq_of_tables_eq (tables_applyAssocOps _ _ _)]
                rw [hrow]
                exact getTable_setTable_self _ _ _
              have hpk' : (getTable (assignId t cols1 db).2 (tablename t)).any
                  (fun r => rowIdOf r == (assignId t cols1 db).1) = false := by
                simpa using hpk
              simp only [queryGetS, htab]
              refine find?_append_last _ _ ?_ ?_
              · intro y hy
                have hy' := List.any_eq_false.mp hpk' y hy
                rw [hrid]
                simpa using hy'
              · simp

/-- Every model's `serialize` emits the row id under key `id`. -/
theorem jGetId_serializeModel (t : Kind) (r : Row) (db : DBState) (i : Int)
    (h : rowLookup r "id" = some (.int i)) :
    jGetId (serializeModel t r db) = i := by
  have hj : jval r "id" = .jint i := by simp [jval, h]
  cases t <;>
    simp [serializeModel, facility_serialize, department_serialize,
      abnormality_serialize, agent_serialize, project_serialize,
      ability_serialize, harm_serialize, ego_serialize, clock_serialize,
      tile_serialize, jGetId, List.lookup_cons, hj]

/-- `check_required_fields` never yields a success response. -/
theorem check_required_fields_some (t : Kind) (data : Payload) (r : Response)
    (h : check_required_fields t data = some r) : r.isSuccess = false := by
  simp only [check_required_fields] at h
  split at h
  · simp at h
  · simp only [Option.some.injEq] at h
    rw [← h]
    rfl

/-- A create_model call that returns a 201 success yields a state in which a
get on the serialized id returns the same serialization. -/
theorem create_model_ok_success (t : Kind) (data : Payload) (db : DBState)
    (res : ReqResult) (s : J) (hc : create_model data t db = .ok res)
    (h : res.resp = .success s 201) :
    get_one_from_model (jGetId s) t res.db = .success s 200 := by
  simp only [create_model] at hc
  split at hc
  · rename_i resp0 hcr
    simp only [Except.ok.injEq] at hc
    have hbad := check_required_fields_some t data resp0 hcr
    subst hc
    dsimp only at h
    rw [h] at hbad
    simp [Response.isSuccess] at hbad
  · split at hc
    · simp at hc
    · rename_i inst hbuild
      split at hc
      · simp at hc
      · rename_i pr hupd
        split at hc
        · simp at hc
        · rename_i rdb hcommit
          simp only [Except.ok.injEq] at hc
          subst hc
          dsimp only at h ⊢
          obtain ⟨hs, _⟩ := Response.success.inj h
          obtain ⟨hid, hq⟩ := commitInsert_ok t pr.1 db rdb.1 rdb.2 hcommit
          rw [← hs]
          rw [jGetId_serializeModel t rdb.1 rdb.2 _ hid]
          simp [get_one_from_model, hq]

/-- C5: for every entity kind and every payload for which create succeeds,
create returns the new row serialized with its assigned id and code 201, and an
immediately following get on that id succeeds and returns a serialization equal
to the one create returned. -/
theorem create_then_get (t : Kind) (data : Payload) (db : DBState) (s : J)
    (h : (createCall t data db).resp = .success s 201) :
    get_one_from_model (jGetId s) t (createCall t data db).db =
      .success s 200 := by
  unfold createCall catch_exception_wrapper at h ⊢
  cases hc : create_model data t db with
  | error e =>
    rw [hc] at h
    dsimp only at h
    exact absurd h (by simp)
  | ok res =>
    rw [hc] at h
    dsimp only at h ⊢
    exact create_model_ok_success t data db res s hc h

/-- C5 witness: creating a Clock in the empty database returns its
serialization with id 1 and code 201, and the subsequent get returns the same
serialization. -/
theorem create_then_get_witness :
    (createCall .clock clockPayload emptyDB).resp = .success clockCreatedJ 201 ∧
    get_one_from_model (jGetId clockCreatedJ) .clock
      (createCall .clock clockPayload emptyDB).db = .success clockCreatedJ 200 :=
  ⟨rfl, create_then_get .clock clockPayload emptyDB clockCreatedJ rfl⟩

/-- C1 (code evaluation at the failing input): creating an Agent whose
department_id names no Department row does not fail with the prepared 404
NotFound — that response, built by update_relationships and naming the
departments table and the id, is discarded by create_model — but with a 400
IntegrityError from the flushed insert violating the foreign key; no Agent row
is persisted. -/
theorem C1_create_agent_unknown_department :
    (createCall .agent agentPayloadBadDept dbDept).resp =
      .failure "insert on table \x22agents\x22 violates a foreign key constraint"
        400 ∧
    (createCall .agent agentPayloadBadDept dbDept).db = dbDept ∧
    getTable (createCall .agent agentPayloadBadDept dbDept).db "agents" = [] ∧
    discardedRelFailure =
      some (.failure "Row not found in table \x27departments\x27 for id=999" 404) :=
  ⟨rfl, rfl, rfl, rfl⟩

/-- C2 (code evaluation at the failing input): any Agent create whose payload
contains stress raises TypeError — validates_stress is declared (self, value)
but SQLAlchemy invokes validators as (self, key, value) — so stress 7 with rank
Agent yields a 500, not a 400 ConstraintViolation, and stress 7 with rank
Captain yields the same 500 instead of succeeding; no row is persisted in
either case. -/
theorem C2_stress_validator_broken :
    (createCall .agent agentPayloadStress7 dbDept).resp =
      .failure "stress validator takes 2 positional arguments but 3 were given"
        500 ∧
    (createCall .agent agentPayloadStress7 dbDept).db = dbDept ∧
    (createCall .agent captainPayloadStress7 dbDept).resp =
      .failure "stress validator takes 2 positional arguments but 3 were given"
        500 ∧
    (createCall .agent captainPayloadStress7 dbDept).db = dbDept :=
  ⟨rfl, rfl, rfl, rfl⟩

/-- C3 (code evaluation at the failing input): creating an Abnormality with
both is_breaching and is_working true succeeds with 201 and stores a row with
both flags true — the breaching_xor_working CheckConstraint is a bare class
attribute never attached to the table, so nothing rejects it. -/
theorem C3_breaching_and_working_accepted :
    (createCall .abnormality abnoPayloadBothFlags emptyDB).resp.code = 201 ∧
    ((queryGetS "abnormalities" 1
        (createCall .abnormality abnoPayloadBothFlags emptyDB).db).map
      (fun r => (getBool r "is_breaching", getBool r "is_working"))) =
      some (some true, some true) :=
  ⟨rfl, rfl⟩

/-- C4 counterexample: editing the Facility with payload day=5, bogus=1 returns
the 400 UnknownColumn response and commits nothing, but the pending transaction
is NOT rolled back before returning — the assignment day=5 is still pending on
the session instance, refuting the rolled-back-before-returning conjunct of the
claim at this input. -/
theorem C4_counterexample :
    (editCall .facility 1 [("day", Value.int 5), ("bogus", Value.int 1)]
        dbFac).resp = .failure "Column \x27bogus\x27 not found" 400 ∧
    (editCall .facility 1 [("day", Value.int 5), ("bogus", Value.int 1)]
        dbFac).db = dbFac ∧
    ¬((editCall .facility 1 [("day", Value.int 5), ("bogus", Value.int 1)]
        dbFac).pending = none) :=
  ⟨rfl, rfl, by decide⟩

/-- C4 (amended): an edit whose payload reaches a key naming no column — with
the preceding column assignments not themselves raising — fails with
UnknownColumn 400 and leaves the stored row unchanged (nothing is committed),
but the pending session assignments are returned un-rolled-back: rollback
happens only in the exception branches of catch_exception_wrapper. -/
theorem C4_unknown_column_edit (t : Kind) (model_id : Int) (data : Payload)
    (db : DBState) (row sofar : Row) (k : String)
    (hrow : queryGetS (tablename t) model_id db = some row)
    (hloop : updateColumnsLoop t row data = .ok (some k, sofar)) :
    editCall t model_id data db =
      ⟨.failure ("Column \x27" ++ k ++ "\x27 not found") 400, db, some sofar⟩ := by
  simp [editCall, edit_model_by_id, catch_exception_wrapper, hrow, hloop]

/-- C4 witness: the amended statement applied to the Facility edit with payload
day=5, bogus=1. -/
theorem C4_unknown_column_edit_witness :
    editCall .facility 1 [("day", Value.int 5), ("bogus", Value.int 1)] dbFac =
      ⟨.failure ("Column \x27" ++ "bogus" ++ "\x27 not found") 400, dbFac,
        some [("day", Value.int 5), ("id", Value.int 1),
              ("available_PE", Value.int 0), ("available_rabbits", Value.int 0),
              ("shift", Value.int 0), ("alert_level", Value.int 0)]⟩ :=
  C4_unknown_column_edit .facility 1
    [("day", Value.int 5), ("bogus", Value.int 1)] dbFac
    [("id", Value.int 1), ("available_PE", Value.int 0),
     ("available_rabbits", Value.int 0), ("day", Value.int 0),
     ("shift", Value.int 0), ("alert_level", Value.int 0)]
    [("day", Value.int 5), ("id", Value.int 1),
     ("available_PE", Value.int 0), ("available_rabbits", Value.int 0),
     ("shift", Value.int 0), ("alert_level", Value.int 0)]
    "bogus" rfl rfl

/-- C6 counterexample: Facility, Department and Tile have no delete endpoint at
all, so delete is not available for every entity kind as the claim states. -/
theorem C6_counterexample :
    ¬(Kind.facility ∈ deleteRoutes) ∧ ¬(Kind.department ∈ deleteRoutes) ∧
    ¬(Kind.tile ∈ deleteRoutes) := by
  refine ⟨by simp [deleteRoutes], by simp [deleteRoutes], by simp [deleteRoutes]⟩

/-- C6 (amended): for every entity kind with a delete endpoint (Abnormality,
Agent, Project, Ability, Harm, Ego, Clock), delete on an existing id returns
the pre-delete serialized state with 200 and removes the row — cascading per
the declared ownership — so that a subsequent get on that id fails with
NotFound; delete on an absent id fails with NotFound and changes nothing. -/
theorem C6_delete_semantics :
    (∀ (t : Kind) (i : Int) (db : DBState) (row : Row),
        t ∈ deleteRoutes →
        queryGetS (tablename t) i db = some row →
        (deleteCall t i db).resp = .success (serializeModel t row db) 200 ∧
        get_one_from_model i t (deleteCall t i db).db =
          .failure ("Row not found for id: " ++ toString i) 404) ∧
    (∀ (t : Kind) (i : Int) (db : DBState),
        queryGetS (tablename t) i db = none →
        deleteCall t i db =
          ⟨.failure ("Row not found for id: " ++ toString i) 404, db, none⟩) := by
  constructor
  · intro t i db row ht hq
    have hdept : (t == Kind.department) = false := by
      cases t <;> first | rfl | exact absurd ht (by simp [deleteRoutes])
    have hred : deleteCall t i db =
        ⟨.success (serializeModel t row db) 200, cascadeDelete t i db, none⟩ := by
      simp [deleteCall, delete_model_by_id, catch_exception_wrapper, hq, hdept]
    refine ⟨by rw [hred], ?_⟩
    rw [hred]
    dsimp only
    have hnone : queryGetS (tablename t) i (cascadeDelete t i db) = none := by
      simp only [queryGetS, getTable_cascadeDelete_self t i db ht]
      exact find?_filter_not _
    simp [get_one_from_model, hnone]
  · intro t i db hq
    simp [deleteCall, delete_model_by_id, catch_exception_wrapper, hq]

/-- C6 witness: deleting the Clock with id 1 returns its pre-delete
serialization, the subsequent get is a 404, and deleting absent id 2 is a 404
that changes nothing. -/
theorem C6_delete_semantics_witness :
    ((deleteCall .clock 1 dbClock).resp =
        .success (serializeModel .clock clockRow dbClock) 200 ∧
      get_one_from_model 1 .clock (deleteCall .clock 1 dbClock).db =
        .failure ("Row not found for id: " ++ toString (1 : Int)) 404) ∧
    deleteCall .clock 2 dbClock =
      ⟨.failure ("Row not found for id: " ++ toString (2 : Int)) 404, dbClock,
        none⟩ :=
  ⟨C6_delete_semantics.1 .clock 1 dbClock clockRow (by simp [deleteRoutes]) rfl,
   C6_delete_semantics.2 .clock 2 dbClock rfl⟩

/-- C7 (code evaluation at the failing input): the edit endpoint happily
overwrites the Facility primary key — the bare `id = 1` CheckConstraint is
never attached to the table — so after editing facility 1 with payload id=2 the
only facility row has id 2, refuting the invariant that every reachable state
keeps a single facility row with id 1. -/
theorem C7_facility_id_editable :
    (editCall .facility 1 [("id", Value.int 2)] dbFac).resp.code = 200 ∧
    (getTable (editCall .facility 1 [("id", Value.int 2)] dbFac).db
        "facilities").map rowIdOf = [2] :=
  ⟨rfl, rfl⟩

/-- C8 (code evaluation at the failing input): the active Tile validator for
is_working / meltdown / work_type / engagement_status raises unconditionally —
`self.abnormalities` is a collection, never None, so the guard
`self.abnormalities is not None or value is None` is always true — hence even
assigning null to is_working fails (with a 500, since ValueError is not in the
wrapper's 400 branch), refuting the claim that null assignments always pass. -/
theorem C8_tile_null_validator_always_raises :
    (editCall .tile 1 [("is_working", Value.null)] dbTile).resp =
      .failure "is_working must be NULL when no abnormalities are assigned to tile"
        500 ∧
    (editCall .tile 1 [("is_working", Value.null)] dbTile).db = dbTile ∧
    (editCall .tile 1 [("is_working", Value.bool true)] dbTile).resp =
      .failure "is_working must be NULL when no abnormalities are assigned to tile"
        500 :=
  ⟨rfl, rfl, rfl⟩

/-- C9 counterexample: Facility, Department and Tile have no create endpoint,
so create is not exposed uniformly for every entity kind as the claim states
(the Department create and delete routes are commented out in app.py). -/
theorem C9_counterexample :
    ¬(Kind.facility ∈ createRoutes) ∧ ¬(Kind.department ∈ createRoutes) ∧
    ¬(Kind.tile ∈ createRoutes) := by
  refine ⟨by simp [createRoutes], by simp [createRoutes], by simp [createRoutes]⟩

/-- C9 (amended): fetch-one and edit are exposed for all ten entity kinds;
fetch-all for all but Facility; create and delete exactly for the seven kinds
other than Facility, Department and Tile. -/
theorem C9_route_exposure (k : Kind) :
    k ∈ getOneRoutes ∧ k ∈ editRoutes ∧
    (k ∈ listRoutes ↔ k ≠ .facility) ∧
    (k ∈ createRoutes ↔ (k ≠ .facility ∧ k ≠ .department ∧ k ≠ .tile)) ∧
    (k ∈ deleteRoutes ↔ (k ≠ .facility ∧ k ≠ .department ∧ k ≠ .tile)) := by
  cases k <;>
    simp [getOneRoutes, editRoutes, listRoutes, createRoutes, deleteRoutes]

/-- C10: get_department_id_by_name raises AttributeError for every input — it
filters on Department.department_name, which is not among the mapped attributes
of the Department model (whose name column is `name`) — rather than returning a
department id. -/
theorem C10_get_department_id_by_name_raises :
    (∀ (name : String) (db : DBState),
      get_department_id_by_name name db =
        .error (.attributeError
          "type object \x27Department\x27 has no attribute \x27department_name\x27")) ∧
    departmentMappedAttrs.contains "department_name" = false ∧
    (columnNames .department).contains "name" = true := by
  refine ⟨fun name db => ?_, by decide, by decide⟩
  rfl

end W08
